import Mathlib

/-!
Shallow embedding of the WhatsApp health-assistant bot (`app.py`).

Python strings are modelled as Lean `String`; `str.lower()` / `str.strip()`
are modelled character-wise over `String.data` (the inputs the program cares
about are ASCII or caseless Devanagari/Bengali, for which this agrees with
Python's Unicode-aware versions).  Wall-clock time is a `Nat`; the global
`user_sessions` dict is a function `String → Option Session`.  The external
language detector (`langdetect.detect`, which may raise) is a parameter
`det : String → Option String` (`none` = the detector raised).  The Gemini
backend is a parameter `beh : Nat → Outcome` giving the outcome of the n-th
`generate_content` request; `Outcome.transient` is an `APIError` /
`RequestException` (retried by the `backoff` decorator), `Outcome.otherErr`
any other exception, `Outcome.reply t` a response whose `.text` is `t`.
-/

set_option autoImplicit false

namespace HealthBot

/-- Roles of conversation turns kept in the Gemini history. -/
inductive Role where
  | user
  | model
deriving DecidableEq, Repr

/-- One turn of the conversation history (`types.Content(role=…, parts=[text])`). -/
structure Turn where
  role : Role
  text : String
deriving DecidableEq, Repr

/-- Per-user session state, the value type of the `user_sessions` dict. -/
structure Session where
  lang : Option String
  msg_count : Nat
  last_seen : Nat
  history : List Turn
deriving DecidableEq, Repr

/-- The global `user_sessions` dict, keyed by user id. -/
abbrev Store := String → Option Session

/-- `user_sessions[uid] = v` (dict item assignment). -/
def updateStore (s : Store) (uid : String) (v : Session) : Store :=
  fun k => if k = uid then some v else s k

/-- `user_sessions.pop(uid, None)` (dict item removal, no error if absent). -/
def removeStore (s : Store) (uid : String) : Store :=
  fun k => if k = uid then none else s k

/-- Model of Python `str.lower()` (character-wise lowercasing). -/
def pyLower (s : String) : String :=
  String.mk (s.data.map Char.toLower)

/-- Model of Python `str.strip()`: drop leading and trailing whitespace. -/
def pyStrip (s : String) : String :=
  String.mk (((s.data.dropWhile Char.isWhitespace).reverse.dropWhile Char.isWhitespace).reverse)

/-- `leadMatch hay needle`: `needle` matches at the start of `hay`. -/
def leadMatch : List Char → List Char → Bool
  | _, [] => true
  | [], _ :: _ => false
  | c :: cs, d :: ds => c == d && leadMatch cs ds

/-- `subSearch needle hay`: `needle` occurs somewhere in `hay`. -/
def subSearch (needle : List Char) : List Char → Bool
  | [] => leadMatch [] needle
  | c :: t => leadMatch (c :: t) needle || subSearch needle t

/-- Model of Python `w in s` (substring containment). -/
def strContainsSub (s w : String) : Bool :=
  subSearch w.data s.data

/-- `SESSION_TIMEOUT = 300` (app.py line 41). -/
def SESSION_TIMEOUT : Nat := 300

/-- `EXIT_WORDS` (app.py line 44). -/
def EXIT_WORDS : List String :=
  ["bye", "no", "thanks", "thank you", "नहीं", "धन्यवाद", "stop", "exit", "band karo"]

/-- `EMERGENCY_WORDS` (app.py line 47). -/
def EMERGENCY_WORDS : List String :=
  ["unconscious", "chest pain", "heavy bleeding", "heart attack",
   "saans lene me dikkat", "सांस लेने में दिक्कत", "दम घुट रहा", "साँस लेने में कठिनाई"]

/-- `SUPPORTED_LANGS` (app.py line 50). -/
def SUPPORTED_LANGS : List String := ["en", "hi", "mr", "bn"]

/-- `EMERGENCY_MESSAGE.get(lang, EMERGENCY_MESSAGE["en"])` (app.py lines 52-57, 226). -/
def EMERGENCY_MESSAGE (lang : String) : String :=
  if lang = "hi" then
    "⚠️ **तुरंत मदद!** यह एक आपातकालीन स्थिति हो सकती है। कृपया बिना देर किए एम्बुलेंस को कॉल करें: **108** या नजदीकी स्वास्थ्य केंद्र पर जाएं।"
  else if lang = "en" then
    "⚠️ **EMERGENCY!** This may be a life-threatening situation. Please call an ambulance immediately: **108** or go to the nearest health center."
  else if lang = "mr" then
    "⚠️ **त्वरित मदत!** ही गंभीर समस्या असू शकते. कृपया त्वरित ॲम्बुलन्सला कॉल करा: **108** किंवा जवळच्या आरोग्य केंद्रात जा."
  else if lang = "bn" then
    "⚠️ **জরুরী!** এটি একটি জীবন-হুমকির পরিস্থিতি হতে পারে। অবিলম্বে অ্যাম্বুলেন্সকে কল করুন: **108** অথবা নিকটস্থ স্বাস্থ্যকেন্দ্রে যান।"
  else
    "⚠️ **EMERGENCY!** This may be a life-threatening situation. Please call an ambulance immediately: **108** or go to the nearest health center."

/-- `any(word in msg for word in EXIT_WORDS)` (app.py line 218). -/
def exit_hit (normalized : String) : Bool :=
  EXIT_WORDS.any (fun w => strContainsSub normalized w)

/-- `any(word in msg for word in EMERGENCY_WORDS)` (app.py line 223). -/
def emergency_hit (normalized : String) : Bool :=
  EMERGENCY_WORDS.any (fun w => strContainsSub normalized w)

/-- `detect_language` (app.py lines 62-68); `det text = none` models the
detector raising, in which case the function returns "en". -/
def detect_language (det : String → Option String) (text : String) : String :=
  match det text with
  | some lang => if lang ∈ SUPPORTED_LANGS then lang else "en"
  | none => "en"

/-- The `localized_query` dict lookup with default (app.py lines 72-77). -/
def localized_query (lang : String) : String :=
  if lang = "hi" then "नजदीकी स्वास्थ्य केंद्र"
  else if lang = "mr" then "जवळचे आरोग्य केंद्र"
  else if lang = "bn" then "নিকটস্থ স্বাস্থ্যকেন্দ্র"
  else if lang = "en" then "health center near me"
  else "health center near me"

/-- Python `localized_query.replace(' ', '+')` (single-character replace). -/
def plusEncode (s : String) : String :=
  String.mk (s.data.map (fun c => if c = ' ' then '+' else c))

/-- `generate_maps_link` (app.py lines 70-78). -/
def generate_maps_link (lang : String) : String :=
  "https://www.google.com/maps/search/?api=1&query=" ++ plusEncode (localized_query lang)

/-- `fallback_message` (app.py lines 80-87). -/
def fallback_message (lang : String) : String :=
  if lang = "hi" then "माफ़ कीजिए, मैं अभी जवाब नहीं दे पा रहा हूँ। कृपया बाद में प्रयास करें।"
  else if lang = "mr" then "माफ करा, मी सध्या उत्तर देऊ शकत नाही. कृपया नंतर प्रयत्न करा."
  else if lang = "bn" then "দুঃখিত, আমি এখন উত্তর দিতে পারছি না। পরে আবার চেষ্টা করুন।"
  else if lang = "en" then "Sorry, I couldn't process that right now. Please try again later."
  else "Sorry, please try again later."

/-- The fresh session dict built at app.py lines 97-102. -/
def freshSession (now : Nat) : Session :=
  { lang := none, msg_count := 0, last_seen := now, history := [] }

/-- `get_user_state` (app.py lines 89-102).  Returns the session the caller
sees together with the store after the call: refreshing `last_seen` on a live
session mutates the stored dict in place (the returned dict is the stored
one), while the fresh session is returned without being committed. -/
def get_user_state (store : Store) (now : Nat) (uid : String) : Session × Store :=
  match store uid with
  | some st =>
      if now - st.last_seen ≤ SESSION_TIMEOUT then
        let st' := { st with last_seen := now }
        (st', updateStore store uid st')
      else
        (freshSession now, store)
  | none => (freshSession now, store)

/-- Outcome of one `gemini_client.models.generate_content` request inside
`ask_llm`: a transient error (`APIError` / `RequestException`, retried by the
`backoff` decorator), any other exception, or a response with `.text = t`. -/
inductive Outcome where
  | transient
  | otherErr
  | reply (t : String)
deriving DecidableEq, Repr

/-- Result of `ask_llm`: the value returned (`Except.error ()` models the
exception the `backoff` decorator re-raises after its tries are exhausted),
the session as mutated by the call, and the number of `generate_content`
requests actually issued. -/
structure LLMResult where
  result : Except Unit String
  session : Session
  attempts : Nat
deriving Repr

/-- `state["history"].append(types.Content(role="user", …))` (app.py line 165). -/
def appendUser (st : Session) (q : String) : Session :=
  { st with history := st.history ++ [⟨Role.user, q⟩] }

/-- `state["history"].append(types.Content(role="model", …))` (app.py line 185). -/
def appendModel (st : Session) (t : String) : Session :=
  { st with history := st.history ++ [⟨Role.model, t⟩] }

/-- One run of the body of `ask_llm` (app.py lines 157-195) for a configured
client: the user turn is appended to the history, then the outcome `out` of
the `generate_content` request is handled.  A transient error is re-raised
(for the `backoff` decorator), an empty stripped reply raises a generic
exception that the body itself catches and turns into the fallback, any other
exception also yields the fallback, and a non-empty reply is appended to the
history and returned. -/
def ask_llm_attempt (q lang : String) (st : Session) (out : Outcome) : LLMResult :=
  let st1 := appendUser st q
  match out with
  | Outcome.reply t =>
      if pyStrip t = "" then
        ⟨Except.ok (fallback_message lang), st1, 1⟩
      else
        ⟨Except.ok (pyStrip t), appendModel st1 (pyStrip t), 1⟩
  | Outcome.otherErr => ⟨Except.ok (fallback_message lang), st1, 1⟩
  | Outcome.transient => ⟨Except.error (), st1, 1⟩

/-- `ask_llm` under the `backoff.on_exception(…, max_tries=3)` decorator
(app.py line 156).  `attemptIdx` numbers the `generate_content` requests,
`tries` is how many calls the decorator still allows (3 at the top).  While
more than one try remains, a transient error triggers a retry that re-runs
the whole body (so the user turn is appended to the history again); on the
last allowed try the transient error propagates to the caller. -/
def ask_llm_go (beh : Nat → Outcome) (q lang : String) :
    Nat → Nat → Session → LLMResult
  | attemptIdx, tries' + 2, st =>
      if beh attemptIdx = Outcome.transient then
        let r := ask_llm_go beh q lang (attemptIdx + 1) (tries' + 1) (appendUser st q)
        ⟨r.result, r.session, r.attempts + 1⟩
      else ask_llm_attempt q lang st (beh attemptIdx)
  | attemptIdx, _, st => ask_llm_attempt q lang st (beh attemptIdx)

/-- `ask_llm` (app.py lines 156-195): if the Gemini client is unconfigured it
returns the fallback without touching the session; otherwise it runs the body
with at most 3 tries. -/
def ask_llm (configured : Bool) (beh : Nat → Outcome) (st : Session)
    (q lang : String) : LLMResult :=
  if configured then ask_llm_go beh q lang 0 3 st
  else ⟨Except.ok (fallback_message lang), st, 0⟩

/-- The value of `state["lang"]` after app.py lines 207-209: kept if already
set, otherwise detected from the raw incoming text. -/
def resolve_lang (det : String → Option String) (store : Store) (now : Nat)
    (uid text : String) : String :=
  match (get_user_state store now uid).1.lang with
  | some l => l
  | none => detect_language det text

/-- The session as committed at app.py line 211: `msg_count` incremented and
`lang` resolved. -/
def resolve_state (det : String → Option String) (store : Store) (now : Nat)
    (uid text : String) : Session :=
  let s0 := (get_user_state store now uid).1
  { s0 with msg_count := s0.msg_count + 1,
            lang := some (resolve_lang det store now uid text) }

/-- The fixed exit acknowledgment (app.py line 220). -/
def exit_ack : String :=
  "Conversation ended. You can send a new message to start again."

/-- The `welcome_text` dict lookup with English default (app.py lines 230-235). -/
def welcome_text (lang : String) : String :=
  if lang = "hi" then "नमस्ते! मैं आपका AI स्वास्थ्य सहायक हूँ। कृपया अपने स्वास्थ्य संबंधी सवाल पूछें।"
  else if lang = "en" then "Hello! I'm your AI Health Assistant. Please ask your health-related question."
  else if lang = "mr" then "नमस्कार! मी तुमचा आरोग्य सहाय्यक आहे. कृपया तुमचा आरोग्य संबंधित प्रश्न विचारा."
  else if lang = "bn" then "হ্যালো! আমি আপনার এআই স্বাস্থ্য সহকারী। আপনার স্বাস্থ্য সংক্রান্ত প্রশ্ন জিজ্ঞাসা করুন।"
  else "Hello! I'm your AI Health Assistant. Please ask your health-related question."

/-- The referral block appended after the model reply (app.py line 245). -/
def referral_suffix (lang : String) : String :=
  "\n\n---\n🗺️ **नजदीकी स्वास्थ्य केंद्र / Nearby Health Center:** [नक्शा / Map Link]("
    ++ generate_maps_link lang ++ ")"

/-- Result of `build_conversation_response`: reply text, the store after the
call, the number of `generate_content` requests issued, and the number of
`logger.critical` calls made. -/
structure BuildResult where
  reply : String
  store : Store
  attempts : Nat
  criticalLogs : Nat

/-- `build_conversation_response` (app.py lines 201-251). -/
def build_conversation_response (det : String → Option String)
    (configured : Bool) (beh : Nat → Outcome) (store : Store) (now : Nat)
    (uid text : String) (is_audio : Bool) : BuildResult :=
  let is_first_message := (get_user_state store now uid).1.msg_count == 0
  let state := resolve_state det store now uid text
  let store1 := updateStore (get_user_state store now uid).2 uid state
  let normalized := pyStrip (pyLower text)
  let lang := resolve_lang det store now uid text
  if exit_hit normalized then
    ⟨exit_ack, removeStore store1 uid, 0, 0⟩
  else if emergency_hit normalized then
    ⟨EMERGENCY_MESSAGE lang, removeStore store1 uid, 0, 1⟩
  else
    let welcome :=
      if is_first_message && !is_audio then
        "*" ++ welcome_text lang ++ "*\n\n---\n"
      else ""
    let r := ask_llm configured beh state text lang
    let store2 := updateStore store1 uid r.session
    match r.result with
    | Except.ok llm_reply =>
        ⟨welcome ++ llm_reply ++ referral_suffix lang, store2, r.attempts, 0⟩
    | Except.error _ =>
        ⟨fallback_message lang, store2, r.attempts, 0⟩

/-- The generic empty-message notice (app.py line 291). -/
def empty_message_notice : String :=
  "Sorry, I received an empty message. Please try again or type your question."

/-- `fallback_message(user_lang)` where `user_lang = user_state.get("lang","en")`
(app.py lines 272, 284): the dict always carries the `"lang"` key, so the
`.get` default is dead and `user_lang` can be Python `None`, in which case
`fallback_message`'s own dict `.get` default fires. -/
def fallback_opt (l : Option String) : String :=
  match l with
  | some s => fallback_message s
  | none => "Sorry, please try again later."

/-- Python truthiness of the `MediaUrl0` form field (app.py line 269):
missing or empty string is falsy. -/
def truthy : Option String → Bool
  | none => false
  | some s => !(s == "")

/-- `whatsapp_webhook` (app.py lines 257-299), transport serialization
elided: returns the reply text and the store after the request.
`transcription` is the outcome of `transcribe_audio_gemini`
(`Except.error ()` = any exception while downloading/transcribing). -/
def whatsapp_webhook (det : String → Option String) (configured : Bool)
    (beh : Nat → Outcome) (transcription : Except Unit String)
    (store : Store) (now : Nat) (from_number body : String)
    (media_url : Option String) (num_media : Nat) : String × Store :=
  if 0 < num_media ∧ truthy media_url = true then
    let gs := get_user_state store now from_number
    let user_state := gs.1
    let store1 := gs.2
    let user_lang := user_state.lang
    match transcription with
    | Except.error _ => (fallback_opt user_lang, store1)
    | Except.ok t =>
        let committed : Session × Store :=
          if user_state.lang.isNone then
            let us := { user_state with lang := some (detect_language det t) }
            (us, updateStore store1 from_number us)
          else (user_state, store1)
        if pyStrip t = "" then (empty_message_notice, committed.2)
        else
          let r := build_conversation_response det configured beh committed.2
                     now from_number t true
          (r.reply, r.store)
  else
    if pyStrip body = "" then (empty_message_notice, store)
    else
      let r := build_conversation_response det configured beh store now
                 from_number body false
      (r.reply, r.store)

/-- A detector that always reports English (sample input for witnesses). -/
def detEn : String → Option String := fun _ => some "en"

/-- An empty session store (sample input for witnesses). -/
def storeEmpty : Store := fun _ => none

/-- A store holding one live Hindi-language session for user "u"
(sample input for witnesses). -/
def storeLiveHi : Store := fun k =>
  if k = "u" then some { lang := some "hi", msg_count := 1, last_seen := 100, history := [] }
  else none

/-- A backend that always fails transiently (sample input for witnesses). -/
def behTransient : Nat → Outcome := fun _ => Outcome.transient

/-- A backend that always answers with the given text (sample input for
witnesses). -/
def behReply (t : String) : Nat → Outcome := fun _ => Outcome.reply t

/-! ## Helper lemmas -/

theorem updateStore_self (s : Store) (uid : String) (v : Session) :
    updateStore s uid v uid = some v := by
  simp [updateStore]

theorem updateStore_ne (s : Store) (uid k : String) (v : Session) (h : k ≠ uid) :
    updateStore s uid v k = s k := by
  simp [updateStore, h]

theorem removeStore_self (s : Store) (uid : String) :
    removeStore s uid uid = none := by
  simp [removeStore]

theorem gus_live (store : Store) (now : Nat) (uid : String) (st : Session)
    (h : store uid = some st) (hle : now - st.last_seen ≤ SESSION_TIMEOUT) :
    get_user_state store now uid =
      ({ st with last_seen := now },
       updateStore store uid { st with last_seen := now }) := by
  simp [get_user_state, h, hle]

theorem gus_none (store : Store) (now : Nat) (uid : String)
    (h : store uid = none) :
    get_user_state store now uid = (freshSession now, store) := by
  simp [get_user_state, h]

theorem gus_expired (store : Store) (now : Nat) (uid : String) (st : Session)
    (h : store uid = some st) (hgt : SESSION_TIMEOUT < now - st.last_seen) :
    get_user_state store now uid = (freshSession now, store) := by
  simp [get_user_state, h, Nat.not_le.mpr hgt]

theorem go_nontransient (beh : Nat → Outcome) (q lang : String) (i : Nat)
    (h : ¬ beh i = Outcome.transient) :
    ∀ tries st, ask_llm_go beh q lang i tries st = ask_llm_attempt q lang st (beh i)
  | 0, st => rfl
  | 1, st => rfl
  | tries' + 2, st => by
      show (if beh i = Outcome.transient then _ else ask_llm_attempt q lang st (beh i)) = _
      rw [if_neg h]

theorem go_reply (beh : Nat → Outcome) (q lang : String) (i tries : Nat)
    (st : Session) (t : String) (hb : beh i = Outcome.reply t)
    (ht : pyStrip t ≠ "") :
    ask_llm_go beh q lang i tries st =
      ⟨Except.ok (pyStrip t), appendModel (appendUser st q) (pyStrip t), 1⟩ := by
  rw [go_nontransient beh q lang i (by simp [hb]) tries st, hb]
  simp [ask_llm_attempt, ht]

theorem go_reply_empty (beh : Nat → Outcome) (q lang : String) (i tries : Nat)
    (st : Session) (t : String) (hb : beh i = Outcome.reply t)
    (ht : pyStrip t = "") :
    ask_llm_go beh q lang i tries st =
      ⟨Except.ok (fallback_message lang), appendUser st q, 1⟩ := by
  rw [go_nontransient beh q lang i (by simp [hb]) tries st, hb]
  simp [ask_llm_attempt, ht]

theorem go_other (beh : Nat → Outcome) (q lang : String) (i tries : Nat)
    (st : Session) (hb : beh i = Outcome.otherErr) :
    ask_llm_go beh q lang i tries st =
      ⟨Except.ok (fallback_message lang), appendUser st q, 1⟩ := by
  rw [go_nontransient beh q lang i (by simp [hb]) tries st, hb]
  rfl

theorem go_transient_one (beh : Nat → Outcome) (q lang : String) (i : Nat)
    (st : Session) (hb : beh i = Outcome.transient) :
    ask_llm_go beh q lang i 1 st = ⟨Except.error (), appendUser st q, 1⟩ := by
  show ask_llm_attempt q lang st (beh i) = _
  rw [hb]
  rfl

theorem go_transient_step (beh : Nat → Outcome) (q lang : String)
    (i tries' : Nat) (st : Session) (hb : beh i = Outcome.transient) :
    ask_llm_go beh q lang i (tries' + 2) st =
      ⟨(ask_llm_go beh q lang (i + 1) (tries' + 1) (appendUser st q)).result,
       (ask_llm_go beh q lang (i + 1) (tries' + 1) (appendUser st q)).session,
       (ask_llm_go beh q lang (i + 1) (tries' + 1) (appendUser st q)).attempts + 1⟩ := by
  show (if beh i = Outcome.transient then _ else ask_llm_attempt q lang st (beh i)) = _
  rw [if_pos hb]

theorem ask_llm_true (beh : Nat → Outcome) (st : Session) (q lang : String) :
    ask_llm true beh st q lang = ask_llm_go beh q lang 0 3 st := by
  simp [ask_llm]

theorem ask_llm_all_transient (beh : Nat → Outcome) (st : Session)
    (q lang : String) (htr : ∀ i, i < 3 → beh i = Outcome.transient) :
    ask_llm true beh st q lang =
      ⟨Except.error (), appendUser (appendUser (appendUser st q) q) q, 3⟩ := by
  rw [ask_llm_true]
  rw [show (3 : Nat) = 1 + 2 from rfl, go_transient_step beh q lang 0 1 st (htr 0 (by omega))]
  rw [show (1 + 1 : Nat) = 0 + 2 from rfl, go_transient_step beh q lang 1 0 _ (htr 1 (by omega))]
  rw [show (0 + 1 : Nat) = 1 from rfl, go_transient_one beh q lang 2 _ (htr 2 (by omega))]

theorem ask_llm_lang (configured : Bool) (beh : Nat → Outcome) (st : Session)
    (q lang : String) :
    (ask_llm configured beh st q lang).session.lang = st.lang := by
  cases configured with
  | false => simp [ask_llm]
  | true =>
    rw [ask_llm_true]
    cases hb0 : beh 0 with
    | reply t =>
      by_cases ht : pyStrip t = ""
      · rw [go_reply_empty beh q lang 0 3 st t hb0 ht]; simp [appendUser]
      · rw [go_reply beh q lang 0 3 st t hb0 ht]; simp [appendUser, appendModel]
    | otherErr => rw [go_other beh q lang 0 3 st hb0]; simp [appendUser]
    | transient =>
      rw [show (3 : Nat) = 1 + 2 from rfl, go_transient_step beh q lang 0 1 st hb0]
      cases hb1 : beh 1 with
      | reply t =>
        by_cases ht : pyStrip t = ""
        · rw [go_reply_empty beh q lang 1 _ _ t hb1 ht]; simp [appendUser]
        · rw [go_reply beh q lang 1 _ _ t hb1 ht]; simp [appendUser, appendModel]
      | otherErr => rw [go_other beh q lang 1 _ _ hb1]; simp [appendUser]
      | transient =>
        rw [show (1 + 1 : Nat) = 0 + 2 from rfl, go_transient_step beh q lang 1 0 _ hb1]
        cases hb2 : beh 2 with
        | reply t =>
          by_cases ht : pyStrip t = ""
          · rw [go_reply_empty beh q lang 2 _ _ t hb2 ht]; simp [appendUser]
          · rw [go_reply beh q lang 2 _ _ t hb2 ht]; simp [appendUser, appendModel]
        | otherErr => rw [go_other beh q lang 2 _ _ hb2]; simp [appendUser]
        | transient =>
          rw [show (0 + 1 : Nat) = 1 from rfl, go_transient_one beh q lang 2 _ hb2]
          simp [appendUser]

theorem attempt_attempts (q lang : String) (st : Session) (o : Outcome) :
    (ask_llm_attempt q lang st o).attempts = 1 := by
  cases o with
  | reply t => simp only [ask_llm_attempt]; split <;> rfl
  | otherErr => rfl
  | transient => rfl

theorem attempt_result_session (q lang : String) (st st' : Session) (o : Outcome) :
    (ask_llm_attempt q lang st o).result = (ask_llm_attempt q lang st' o).result := by
  cases o with
  | reply t => simp only [ask_llm_attempt]; split <;> rfl
  | otherErr => rfl
  | transient => rfl

theorem ask_llm_k_then_stop (beh : Nat → Outcome) (st : Session)
    (q lang : String) (k : Nat) (hk : k < 3)
    (hpre : ∀ i, i < k → beh i = Outcome.transient)
    (hnt : ¬ beh k = Outcome.transient) :
    (ask_llm true beh st q lang).result = (ask_llm_attempt q lang st (beh k)).result
    ∧ (ask_llm true beh st q lang).attempts = k + 1 := by
  rcases (by omega : k = 0 ∨ k = 1 ∨ k = 2) with rfl | rfl | rfl
  · rw [ask_llm_true, go_nontransient beh q lang 0 hnt 3 st]
    exact ⟨attempt_result_session q lang st st (beh 0), attempt_attempts q lang st (beh 0)⟩
  · rw [ask_llm_true, show (3 : Nat) = 1 + 2 from rfl,
        go_transient_step beh q lang 0 1 st (hpre 0 (by omega)),
        show (1 + 1 : Nat) = 2 from rfl,
        go_nontransient beh q lang 1 hnt 2 (appendUser st q)]
    exact ⟨attempt_result_session q lang (appendUser st q) st (beh 1),
           by rw [attempt_attempts]⟩
  · rw [ask_llm_true, show (3 : Nat) = 1 + 2 from rfl,
        go_transient_step beh q lang 0 1 st (hpre 0 (by omega)),
        show (1 + 1 : Nat) = 0 + 2 from rfl,
        go_transient_step beh q lang 1 0 _ (hpre 1 (by omega)),
        show (0 + 1 : Nat) = 1 from rfl,
        go_nontransient beh q lang 2 hnt 1 (appendUser (appendUser st q) q)]
    exact ⟨attempt_result_session q lang _ st (beh 2), by rw [attempt_attempts]⟩

theorem resolve_lang_live (det : String → Option String) (store : Store)
    (now : Nat) (uid text : String) (st : Session) (l : String)
    (h : store uid = some st) (hle : now - st.last_seen ≤ SESSION_TIMEOUT)
    (hl : st.lang = some l) :
    resolve_lang det store now uid text = l := by
  simp [resolve_lang, gus_live store now uid st h hle, hl]

theorem resolve_lang_fresh (det : String → Option String) (store : Store)
    (now : Nat) (uid text : String) (h : store uid = none) :
    resolve_lang det store now uid text = detect_language det text := by
  simp [resolve_lang, gus_none store now uid h, freshSession]

theorem build_store_lang (det : String → Option String) (configured : Bool)
    (beh : Nat → Outcome) (store : Store) (now : Nat) (uid text : String)
    (is_audio : Bool) :
    Option.all (fun s => s.lang == some (resolve_lang det store now uid text))
      ((build_conversation_response det configured beh store now uid text is_audio).store uid)
      = true := by
  have hsl : (ask_llm configured beh (resolve_state det store now uid text) text
      (resolve_lang det store now uid text)).session.lang
      = some (resolve_lang det store now uid text) := by
    rw [ask_llm_lang]
    simp [resolve_state]
  by_cases hx : exit_hit (pyStrip (pyLower text)) = true
  · simp [build_conversation_response, hx, removeStore]
  · rw [Bool.not_eq_true] at hx
    by_cases he : emergency_hit (pyStrip (pyLower text)) = true
    · simp [build_conversation_response, hx, he, removeStore]
    · rw [Bool.not_eq_true] at he
      cases hr : (ask_llm configured beh (resolve_state det store now uid text) text
          (resolve_lang det store now uid text)).result with
      | ok v => simp [build_conversation_response, hx, he, hr, updateStore, hsl]
      | error e => simp [build_conversation_response, hx, he, hr, updateStore, hsl]

theorem webhook_store_lang (det : String → Option String) (configured : Bool)
    (beh : Nat → Outcome) (transcription : Except Unit String) (store : Store)
    (now : Nat) (uid body : String) (media_url : Option String)
    (num_media : Nat) (st : Session) (l : String)
    (h : store uid = some st) (hle : now - st.last_seen ≤ SESSION_TIMEOUT)
    (hl : st.lang = some l) :
    Option.all (fun s => s.lang == some l)
      ((whatsapp_webhook det configured beh transcription store now uid body
          media_url num_media).2 uid) = true := by
  by_cases haud : 0 < num_media ∧ truthy media_url = true
  · cases transcription with
    | error e =>
        simp [whatsapp_webhook, haud, gus_live store now uid st h hle, updateStore, hl]
    | ok t =>
        by_cases hte : pyStrip t = ""
        · simp [whatsapp_webhook, haud, gus_live store now uid st h hle, hte,
                Option.isNone, hl, updateStore]
        · have hb := build_store_lang det configured beh
            (updateStore store uid { st with last_seen := now }) now uid t true
          rw [resolve_lang_live det _ now uid t { st with last_seen := now } l
            (updateStore_self store uid _) (by simp) hl] at hb
          simpa [whatsapp_webhook, haud, gus_live store now uid st h hle, hte,
                 Option.isNone, hl] using hb
  · by_cases hbod : pyStrip body = ""
    · simp [whatsapp_webhook, haud, hbod, h, hl]
    · have hb := build_store_lang det configured beh store now uid body false
      rw [resolve_lang_live det store now uid body st l h hle hl] at hb
      simpa [whatsapp_webhook, haud, hbod] using hb

/-! ## Claim theorems -/

/-- Claim C1: for every inbound text whose lower-cased, trimmed form contains
a configured exit phrase as a substring, `build_conversation_response` removes
the user's session from the store and returns the fixed, non-localized
termination acknowledgment, without issuing any Model Gateway request — with
no hypothesis on emergency phrases, so this holds even when the text also
contains one (exit is checked first and wins). -/
theorem exit_phrase_short_circuits (det : String → Option String)
    (configured : Bool) (beh : Nat → Outcome) (store : Store) (now : Nat)
    (uid text : String) (is_audio : Bool)
    (hexit : exit_hit (pyStrip (pyLower text)) = true) :
    (build_conversation_response det configured beh store now uid text is_audio).reply
        = exit_ack
    ∧ (build_conversation_response det configured beh store now uid text is_audio).store uid
        = none
    ∧ (build_conversation_response det configured beh store now uid text is_audio).attempts
        = 0 := by
  refine ⟨?_, ?_, ?_⟩ <;> simp [build_conversation_response, hexit, removeStore]

/-- Witness for C1 at the message "Thanks chest pain", which contains both the
exit word "thanks" and the emergency word "chest pain": exit wins. -/
theorem exit_phrase_short_circuits_witness :
    exit_hit (pyStrip (pyLower "Thanks chest pain")) = true
    ∧ emergency_hit (pyStrip (pyLower "Thanks chest pain")) = true
    ∧ (build_conversation_response detEn true behTransient storeEmpty 0 "u"
        "Thanks chest pain" false).reply = exit_ack
    ∧ (build_conversation_response detEn true behTransient storeEmpty 0 "u"
        "Thanks chest pain" false).store "u" = none
    ∧ (build_conversation_response detEn true behTransient storeEmpty 0 "u"
        "Thanks chest pain" false).attempts = 0 := by
  have h := exit_phrase_short_circuits detEn true behTransient storeEmpty 0 "u"
    "Thanks chest pain" false (by decide)
  exact ⟨by decide, by decide, h.1, h.2.1, h.2.2⟩

/-- Counterexample to claim C2 as stated: the input "Thanks chest pain"
contains the configured emergency phrase "chest pain", yet
`build_conversation_response` returns the exit acknowledgment rather than the
localized emergency message, and makes no critical-severity log call, because
the exit check fires first. -/
theorem emergency_universal_counterexample :
    emergency_hit (pyStrip (pyLower "Thanks chest pain")) = true
    ∧ (build_conversation_response detEn true behTransient storeEmpty 0 "u"
        "Thanks chest pain" false).reply
        ≠ EMERGENCY_MESSAGE (resolve_lang detEn storeEmpty 0 "u" "Thanks chest pain")
    ∧ (build_conversation_response detEn true behTransient storeEmpty 0 "u"
        "Thanks chest pain" false).criticalLogs = 0 := by
  exact ⟨by decide, by decide, by decide⟩

/-- Claim C2 (amended): for all text inputs whose normalized form contains a
configured emergency phrase and no exit phrase, `build_conversation_response`
removes the user's session, returns the localized emergency message for the
session language, issues no Model Gateway request, and logs at critical
severity exactly once; `EMERGENCY_MESSAGE` falls back to the English variant
for every unrecognized code. -/
theorem emergency_short_circuits (det : String → Option String)
    (configured : Bool) (beh : Nat → Outcome) (store : Store) (now : Nat)
    (uid text : String) (is_audio : Bool)
    (hexit : exit_hit (pyStrip (pyLower text)) = false)
    (hemer : emergency_hit (pyStrip (pyLower text)) = true) :
    (build_conversation_response det configured beh store now uid text is_audio).reply
        = EMERGENCY_MESSAGE (resolve_lang det store now uid text)
    ∧ (build_conversation_response det configured beh store now uid text is_audio).store uid
        = none
    ∧ (build_conversation_response det configured beh store now uid text is_audio).attempts
        = 0
    ∧ (build_conversation_response det configured beh store now uid text is_audio).criticalLogs
        = 1
    ∧ (∀ c, c ≠ "hi" → c ≠ "mr" → c ≠ "bn" →
        EMERGENCY_MESSAGE c = EMERGENCY_MESSAGE "en") := by
  refine ⟨?_, ?_, ?_, ?_, ?_⟩
  · simp [build_conversation_response, hexit, hemer]
  · simp [build_conversation_response, hexit, hemer, removeStore]
  · simp [build_conversation_response, hexit, hemer]
  · simp [build_conversation_response, hexit, hemer]
  · intro c h1 h2 h3
    by_cases hc : c = "en"
    · subst hc; rfl
    · simp [EMERGENCY_MESSAGE, h1, h2, h3, hc]

/-- Witness for C2 (amended) at the emergency-only message "chest pain" with
an English-detecting detector. -/
theorem emergency_short_circuits_witness :
    exit_hit (pyStrip (pyLower "chest pain")) = false
    ∧ emergency_hit (pyStrip (pyLower "chest pain")) = true
    ∧ (build_conversation_response detEn true behTransient storeEmpty 0 "u"
        "chest pain" false).reply
        = EMERGENCY_MESSAGE (resolve_lang detEn storeEmpty 0 "u" "chest pain")
    ∧ (build_conversation_response detEn true behTransient storeEmpty 0 "u"
        "chest pain" false).store "u" = none
    ∧ (build_conversation_response detEn true behTransient storeEmpty 0 "u"
        "chest pain" false).criticalLogs = 1 := by
  have h := emergency_short_circuits detEn true behTransient storeEmpty 0 "u"
    "chest pain" false (by decide) (by decide)
  exact ⟨by decide, by decide, h.1, h.2.1, h.2.2.2.1⟩

/-- Claim C4: `get_user_state` returns the stored session with its
last-activity timestamp refreshed (and commits the refresh) exactly when a
session exists and is at most `SESSION_TIMEOUT` old; otherwise — absent or
expired alike — it returns a brand-new session with unset language, zero
message count and empty history, leaving the store untouched. -/
theorem get_user_state_contract (store : Store) (now : Nat) (uid : String) :
    (∀ st, store uid = some st → now - st.last_seen ≤ SESSION_TIMEOUT →
       get_user_state store now uid =
         ({ st with last_seen := now },
          updateStore store uid { st with last_seen := now }))
    ∧ (store uid = none → get_user_state store now uid = (freshSession now, store))
    ∧ (∀ st, store uid = some st → SESSION_TIMEOUT < now - st.last_seen →
       get_user_state store now uid = (freshSession now, store))
    ∧ (freshSession now).lang = none
    ∧ (freshSession now).msg_count = 0
    ∧ (freshSession now).history = [] := by
  exact ⟨fun st h hle => gus_live store now uid st h hle,
         fun h => gus_none store now uid h,
         fun st h hgt => gus_expired store now uid st h hgt,
         rfl, rfl, rfl⟩

/-- Witness for C4: a live session is refreshed and committed, an expired
session and an absent one both yield the uncommitted fresh session. -/
theorem get_user_state_contract_witness :
    get_user_state storeLiveHi 250 "u" =
      ({ lang := some "hi", msg_count := 1, last_seen := 250, history := [] },
       updateStore storeLiveHi "u"
         { lang := some "hi", msg_count := 1, last_seen := 250, history := [] })
    ∧ get_user_state storeLiveHi 9999 "u" = (freshSession 9999, storeLiveHi)
    ∧ get_user_state storeEmpty 5 "x" = (freshSession 5, storeEmpty) := by
  exact ⟨(get_user_state_contract storeLiveHi 250 "u").1
           { lang := some "hi", msg_count := 1, last_seen := 100, history := [] }
           rfl (by decide),
         (get_user_state_contract storeLiveHi 9999 "u").2.2.1
           { lang := some "hi", msg_count := 1, last_seen := 100, history := [] }
           rfl (by decide),
         (get_user_state_contract storeEmpty 5 "x").2.1 rfl⟩

/-- Claim C7: a request with an empty (or whitespace-only) body and zero
media is answered with the generic empty-message notice, the orchestrator is
never invoked (the result does not depend on the detector, the gateway or the
transcription outcome), and the session store is returned completely
unchanged. -/
theorem empty_inbound_no_mutation (det : String → Option String)
    (configured : Bool) (beh : Nat → Outcome) (transcription : Except Unit String)
    (store : Store) (now : Nat) (from_number body : String)
    (media_url : Option String)
    (hbody : pyStrip body = "") :
    whatsapp_webhook det configured beh transcription store now from_number
        body media_url 0 = (empty_message_notice, store) := by
  simp [whatsapp_webhook, hbody]

/-- Witness for C7 at a whitespace-only body. -/
theorem empty_inbound_no_mutation_witness :
    whatsapp_webhook detEn true behTransient (Except.error ()) storeEmpty 0 "u"
        "   " none 0 = (empty_message_notice, storeEmpty) := by
  exact empty_inbound_no_mutation detEn true behTransient (Except.error ())
    storeEmpty 0 "u" "   " none (by decide)

/-- Claim C9: when the detector reports a supported code, the maps link built
from `detect_language` contains exactly the pre-defined localized query for
that code with spaces encoded as "+"; when it reports an unrecognized code,
`detect_language` falls back to "en" and the link carries the English
query. -/
theorem maps_link_round_trip (det : String → Option String) (text code : String) :
    (code ∈ SUPPORTED_LANGS → det text = some code →
       strContainsSub (generate_maps_link (detect_language det text))
         (plusEncode (localized_query code)) = true)
    ∧ (code ∉ SUPPORTED_LANGS → det text = some code →
       detect_language det text = "en"
       ∧ strContainsSub (generate_maps_link (detect_language det text))
           (plusEncode (localized_query "en")) = true) := by
  constructor
  · intro hmem hdet
    have hdl : detect_language det text = code := by
      simp [detect_language, hdet, hmem]
    rw [hdl]
    simp only [SUPPORTED_LANGS, List.mem_cons, List.not_mem_nil, or_false] at hmem
    rcases hmem with rfl | rfl | rfl | rfl <;> decide
  · intro hmem hdet
    have hdl : detect_language det text = "en" := by
      simp [detect_language, hdet, hmem]
    exact ⟨hdl, by rw [hdl]; decide⟩

/-- Witness for C9 at the supported code "hi" and the unrecognized code
"fr". -/
theorem maps_link_round_trip_witness :
    strContainsSub (generate_maps_link (detect_language (fun _ => some "hi") "x"))
        (plusEncode (localized_query "hi")) = true
    ∧ detect_language (fun _ => some "fr") "y" = "en"
    ∧ strContainsSub (generate_maps_link (detect_language (fun _ => some "fr") "y"))
        (plusEncode (localized_query "en")) = true := by
  refine ⟨(maps_link_round_trip (fun _ => some "hi") "x" "hi").1 (by decide) rfl, ?_⟩
  have h := (maps_link_round_trip (fun _ => some "fr") "y" "fr").2 (by decide) rfl
  exact ⟨h.1, h.2⟩

/-- Claim C10: when the model-turn step raises (all three gateway attempts
fail transiently, so the retry-exhausted exception reaches the orchestrator),
`build_conversation_response` returns exactly the localized fallback message:
the welcome banner buffered for a first message is discarded and no map-link
referral block is appended. -/
theorem llm_failure_fallback_only (det : String → Option String)
    (beh : Nat → Outcome) (store : Store) (now : Nat) (uid text : String)
    (is_audio : Bool)
    (hexit : exit_hit (pyStrip (pyLower text)) = false)
    (hemer : emergency_hit (pyStrip (pyLower text)) = false)
    (htr : ∀ i, i < 3 → beh i = Outcome.transient) :
    (build_conversation_response det true beh store now uid text is_audio).reply
      = fallback_message (resolve_lang det store now uid text) := by
  have hask := ask_llm_all_transient beh (resolve_state det store now uid text)
    text (resolve_lang det store now uid text) htr
  simp [build_conversation_response, hexit, hemer, hask]

/-- Witness for C10: a first message ("fever") whose three generation
attempts all fail transiently yields exactly the English fallback, with no
banner and no map link. -/
theorem llm_failure_fallback_only_witness :
    (build_conversation_response detEn true behTransient storeEmpty 0 "u"
        "fever" false).reply
      = fallback_message (resolve_lang detEn storeEmpty 0 "u" "fever") := by
  exact llm_failure_fallback_only detEn behTransient storeEmpty 0 "u" "fever"
    false (by decide) (by decide) (fun i _ => rfl)

/-- Counterexample to claim C3 as stated: with a backend that fails
transiently on every attempt, `ask_llm` makes 3 attempts and then re-raises
the transient error to its caller (it does not return the fallback string);
and with a backend whose reply is empty, `ask_llm` returns the fallback after
exactly 1 attempt, not 3. -/
theorem retry_raises_counterexample :
    (ask_llm true behTransient
        { lang := some "en", msg_count := 1, last_seen := 0, history := [] }
        "q" "en").result = Except.error ()
    ∧ (ask_llm true behTransient
        { lang := some "en", msg_count := 1, last_seen := 0, history := [] }
        "q" "en").attempts = 3
    ∧ (ask_llm true (behReply "")
        { lang := some "en", msg_count := 1, last_seen := 0, history := [] }
        "q" "en").result = Except.ok (fallback_message "en")
    ∧ (ask_llm true (behReply "")
        { lang := some "en", msg_count := 1, last_seen := 0, history := [] }
        "q" "en").attempts = 1 := by
  exact ⟨rfl, rfl, rfl, rfl⟩

/-- Claim C3 (amended): with a configured gateway, `ask_llm` retries
transient provider errors up to 3 total attempts.  If the backend fails
transiently k < 3 times and then returns non-empty text, `ask_llm` returns
that (stripped) reply after exactly k + 1 attempts.  If every attempt fails
transiently, it makes exactly 3 attempts and then the transient error
propagates to the caller (the orchestrator catches it, see C10) — it is not
converted to the fallback inside `ask_llm`.  An empty reply or any
non-transient exception ends the call immediately with the locked fallback
string after k + 1 attempts, with no further retries. -/
theorem ask_llm_retry_contract (beh : Nat → Outcome) (st : Session)
    (q lang t : String) (k : Nat) :
    ((∀ i, i < 3 → beh i = Outcome.transient) →
       (ask_llm true beh st q lang).result = Except.error ()
       ∧ (ask_llm true beh st q lang).attempts = 3)
    ∧ (k < 3 → (∀ i, i < k → beh i = Outcome.transient) →
       beh k = Outcome.reply t → pyStrip t ≠ "" →
       (ask_llm true beh st q lang).result = Except.ok (pyStrip t)
       ∧ (ask_llm true beh st q lang).attempts = k + 1)
    ∧ (k < 3 → (∀ i, i < k → beh i = Outcome.transient) →
       beh k = Outcome.reply t → pyStrip t = "" →
       (ask_llm true beh st q lang).result = Except.ok (fallback_message lang)
       ∧ (ask_llm true beh st q lang).attempts = k + 1)
    ∧ (k < 3 → (∀ i, i < k → beh i = Outcome.transient) →
       beh k = Outcome.otherErr →
       (ask_llm true beh st q lang).result = Except.ok (fallback_message lang)
       ∧ (ask_llm true beh st q lang).attempts = k + 1) := by
  refine ⟨?_, ?_, ?_, ?_⟩
  · intro htr
    rw [ask_llm_all_transient beh st q lang htr]
    exact ⟨rfl, rfl⟩
  · intro hk hpre hb ht
    have h := ask_llm_k_then_stop beh st q lang k hk hpre (by simp [hb])
    refine ⟨?_, h.2⟩
    rw [h.1, hb]
    simp [ask_llm_attempt, ht]
  · intro hk hpre hb ht
    have h := ask_llm_k_then_stop beh st q lang k hk hpre (by simp [hb])
    refine ⟨?_, h.2⟩
    rw [h.1, hb]
    simp [ask_llm_attempt, ht]
  · intro hk hpre hb
    have h := ask_llm_k_then_stop beh st q lang k hk hpre (by simp [hb])
    refine ⟨?_, h.2⟩
    rw [h.1, hb]
    rfl

/-- Witness for C3 (amended): a backend failing transiently twice and then
answering "All good" yields the successful reply after exactly 3 attempts;
one failing three times exhausts its 3 attempts and raises. -/
theorem ask_llm_retry_contract_witness :
    (ask_llm true (fun i => if i < 2 then Outcome.transient else Outcome.reply "All good")
        (freshSession 0) "q" "en").result = Except.ok (pyStrip "All good")
    ∧ (ask_llm true (fun i => if i < 2 then Outcome.transient else Outcome.reply "All good")
        (freshSession 0) "q" "en").attempts = 3
    ∧ (ask_llm true behTransient (freshSession 0) "q" "en").result = Except.error ()
    ∧ (ask_llm true behTransient (freshSession 0) "q" "en").attempts = 3 := by
  have h2 := ((ask_llm_retry_contract
      (fun i => if i < 2 then Outcome.transient else Outcome.reply "All good")
      (freshSession 0) "q" "en" "All good" 2).2.1)
    (by omega) (fun i hi => by interval_cases i <;> rfl) (by rfl) (by decide)
  have h0 := (ask_llm_retry_contract behTransient (freshSession 0) "q" "en" "" 0).1
    (fun i _ => rfl)
  exact ⟨h2.1, h2.2, h0.1, h0.2⟩

/-- Claim C8: `ask_llm` appends the user's turn to the session history before
attempting generation, so a failed or empty-reply generation leaves an
orphaned user turn with no paired model turn (and each transient retry
re-appends it: three all-transient attempts leave three orphaned copies);
the mutation is never rolled back. -/
theorem history_orphan_user_turn (st : Session) (q lang : String) :
    (ask_llm true (fun _ => Outcome.otherErr) st q lang).session.history
        = st.history ++ [⟨Role.user, q⟩]
    ∧ (ask_llm true (fun _ => Outcome.otherErr) st q lang).result
        = Except.ok (fallback_message lang)
    ∧ (ask_llm true (behReply "") st q lang).session.history
        = st.history ++ [⟨Role.user, q⟩]
    ∧ (ask_llm true (behReply "") st q lang).result
        = Except.ok (fallback_message lang)
    ∧ (ask_llm true behTransient st q lang).session.history
        = st.history ++ [⟨Role.user, q⟩, ⟨Role.user, q⟩, ⟨Role.user, q⟩]
    ∧ (ask_llm true behTransient st q lang).result = Except.error () := by
  refine ⟨?_, ?_, ?_, ?_, ?_, ?_⟩
  · rw [ask_llm_true, go_other _ q lang 0 3 st rfl]
    simp [appendUser]
  · rw [ask_llm_true, go_other _ q lang 0 3 st rfl]
  · rw [ask_llm_true, go_reply_empty _ q lang 0 3 st "" rfl (by decide)]
    simp [appendUser]
  · rw [ask_llm_true, go_reply_empty _ q lang 0 3 st "" rfl (by decide)]
  · rw [ask_llm_all_transient behTransient st q lang (fun _ _ => rfl)]
    simp [appendUser]
  · rw [ask_llm_all_transient behTransient st q lang (fun _ _ => rfl)]

/-- Claim C5: a session's language is set once — from the first inbound text
(or its transcription, for audio) — and never overwritten afterwards: any
session left in the store for a user whose live session already carried
language `l` still carries `l` after `build_conversation_response` and after
the whole webhook (audio or not), and a user with no stored session gets the
language detected from the current text. -/
theorem language_frozen_per_session (det : String → Option String)
    (configured : Bool) (beh : Nat → Outcome) (transcription : Except Unit String)
    (store : Store) (now : Nat) (uid text body : String)
    (media_url : Option String) (num_media : Nat) (is_audio : Bool) :
    (∀ st l, store uid = some st → now - st.last_seen ≤ SESSION_TIMEOUT →
       st.lang = some l →
       Option.all (fun s => s.lang == some l)
         ((build_conversation_response det configured beh store now uid text
             is_audio).store uid) = true)
    ∧ (store uid = none →
       Option.all (fun s => s.lang == some (detect_language det text))
         ((build_conversation_response det configured beh store now uid text
             is_audio).store uid) = true)
    ∧ (∀ st l, store uid = some st → now - st.last_seen ≤ SESSION_TIMEOUT →
       st.lang = some l →
       Option.all (fun s => s.lang == some l)
         ((whatsapp_webhook det configured beh transcription store now uid body
             media_url num_media).2 uid) = true) := by
  refine ⟨?_, ?_, ?_⟩
  · intro st l h hle hl
    have hb := build_store_lang det configured beh store now uid text is_audio
    rwa [resolve_lang_live det store now uid text st l h hle hl] at hb
  · intro h
    have hb := build_store_lang det configured beh store now uid text is_audio
    rwa [resolve_lang_fresh det store now uid text h] at hb
  · intro st l h hle hl
    exact webhook_store_lang det configured beh transcription store now uid body
      media_url num_media st l h hle hl

/-- Witness for C5: a live Hindi session keeps language "hi" across a text
turn (even though the detector says "en") and across an audio webhook turn;
a fresh user gets the detected language. -/
theorem language_frozen_per_session_witness :
    Option.all (fun s => s.lang == some "hi")
      ((build_conversation_response detEn true (behReply "ok") storeLiveHi 250
          "u" "hello" false).store "u") = true
    ∧ Option.all (fun s => s.lang == some (detect_language detEn "hello"))
      ((build_conversation_response detEn true (behReply "ok") storeEmpty 250
          "u" "hello" false).store "u") = true
    ∧ Option.all (fun s => s.lang == some "hi")
      ((whatsapp_webhook detEn true (behReply "ok") (Except.ok "kaise ho")
          storeLiveHi 250 "u" "hello" (some "m") 1).2 "u") = true := by
  have h := language_frozen_per_session detEn true (behReply "ok")
    (Except.ok "kaise ho") storeLiveHi 250 "u" "hello" "hello" (some "m") 1 false
  have h2 := language_frozen_per_session detEn true (behReply "ok")
    (Except.ok "kaise ho") storeEmpty 250 "u" "hello" "hello" (some "m") 1 false
  exact ⟨h.1 _ "hi" rfl (by decide) rfl, h2.2.1 rfl,
         h.2.2 _ "hi" rfl (by decide) rfl⟩

theorem build_fresh_first (det : String → Option String) (beh : Nat → Outcome)
    (store : Store) (now : Nat) (uid text t : String)
    (hgus : get_user_state store now uid = (freshSession now, store))
    (hx : exit_hit (pyStrip (pyLower text)) = false)
    (he : emergency_hit (pyStrip (pyLower text)) = false)
    (hb : beh 0 = Outcome.reply t) (ht : pyStrip t ≠ "") :
    (build_conversation_response det true beh store now uid text false).reply
      = ("*" ++ welcome_text (detect_language det text) ++ "*\n\n---\n")
        ++ pyStrip t ++ referral_suffix (detect_language det text)
    ∧ (build_conversation_response det true beh store now uid text false).store uid
      = some { lang := some (detect_language det text), msg_count := 1,
               last_seen := now,
               history := [⟨Role.user, text⟩, ⟨Role.model, pyStrip t⟩] } := by
  have hlang : resolve_lang det store now uid text = detect_language det text := by
    simp [resolve_lang, hgus, freshSession]
  have hstate : resolve_state det store now uid text =
      { lang := some (detect_language det text), msg_count := 1,
        last_seen := now, history := [] } := by
    simp [resolve_state, hgus, freshSession, hlang]
  have hask : ask_llm true beh
      { lang := some (detect_language det text), msg_count := 1,
        last_seen := now, history := [] } text (detect_language det text)
      = ⟨Except.ok (pyStrip t),
         appendModel (appendUser
           { lang := some (detect_language det text), msg_count := 1,
             last_seen := now, history := [] } text) (pyStrip t), 1⟩ := by
    rw [ask_llm_true, go_reply beh text (detect_language det text) 0 3 _ t hb ht]
  constructor
  · simp [build_conversation_response, hx, he, hstate, hask, hgus, freshSession,
          hlang]
  · simp [build_conversation_response, hx, he, hstate, hask, hgus, freshSession,
          hlang, updateStore, appendUser, appendModel]

theorem build_live_second (det : String → Option String) (beh : Nat → Outcome)
    (store : Store) (now : Nat) (uid text t : String) (S : Session) (l : String)
    (hst : store uid = some S) (hlive : now - S.last_seen ≤ SESSION_TIMEOUT)
    (hmc : S.msg_count ≠ 0) (hl : S.lang = some l)
    (hx : exit_hit (pyStrip (pyLower text)) = false)
    (he : emergency_hit (pyStrip (pyLower text)) = false)
    (hb : beh 0 = Outcome.reply t) (ht : pyStrip t ≠ "") :
    (build_conversation_response det true beh store now uid text false).reply
      = pyStrip t ++ referral_suffix l := by
  have hlang : resolve_lang det store now uid text = l :=
    resolve_lang_live det store now uid text S l hst hlive hl
  have hask : ask_llm true beh (resolve_state det store now uid text) text l
      = ⟨Except.ok (pyStrip t),
         appendModel (appendUser (resolve_state det store now uid text) text)
           (pyStrip t), 1⟩ := by
    rw [ask_llm_true, go_reply beh text l 0 3 _ t hb ht]
  simp [build_conversation_response, hx, he, hask,
        gus_live store now uid S hst hlive, hmc, hlang]

/-- Claim C6: for a user id with no live session (absent or expired) sending
a non-exit, non-emergency text (not audio) that the gateway answers, the
reply is the localized welcome banner followed by the model reply and the
referral block; a second such message from the same user id within the
timeout window produces a reply that is just the model reply and referral
block, containing no banner (provided the model output itself does not embed
the banner). -/
theorem welcome_banner_first_message_only (det : String → Option String)
    (store0 : Store) (uid text1 text2 t1 t2 : String) (now1 now2 : Nat)
    (beh1 beh2 : Nat → Outcome)
    (hfresh : store0 uid = none ∨
      ∃ st, store0 uid = some st ∧ SESSION_TIMEOUT < now1 - st.last_seen)
    (hx1 : exit_hit (pyStrip (pyLower text1)) = false)
    (he1 : emergency_hit (pyStrip (pyLower text1)) = false)
    (hx2 : exit_hit (pyStrip (pyLower text2)) = false)
    (he2 : emergency_hit (pyStrip (pyLower text2)) = false)
    (hb1 : beh1 0 = Outcome.reply t1) (ht1 : pyStrip t1 ≠ "")
    (hb2 : beh2 0 = Outcome.reply t2) (ht2 : pyStrip t2 ≠ "")
    (hwin : now2 - now1 ≤ SESSION_TIMEOUT)
    (hclean : strContainsSub
        (pyStrip t2 ++ referral_suffix (detect_language det text1))
        ("*" ++ welcome_text (detect_language det text1) ++ "*\n\n---\n")
        = false) :
    (build_conversation_response det true beh1 store0 now1 uid text1 false).reply
      = ("*" ++ welcome_text (detect_language det text1) ++ "*\n\n---\n")
        ++ pyStrip t1 ++ referral_suffix (detect_language det text1)
    ∧ (build_conversation_response det true beh2
        (build_conversation_response det true beh1 store0 now1 uid text1 false).store
        now2 uid text2 false).reply
      = pyStrip t2 ++ referral_suffix (detect_language det text1)
    ∧ strContainsSub
        (build_conversation_response det true beh2
          (build_conversation_response det true beh1 store0 now1 uid text1 false).store
          now2 uid text2 false).reply
        ("*" ++ welcome_text (detect_language det text1) ++ "*\n\n---\n")
        = false := by
  have hgus : get_user_state store0 now1 uid = (freshSession now1, store0) := by
    rcases hfresh with h | ⟨st, h, hgt⟩
    · exact gus_none store0 now1 uid h
    · exact gus_expired store0 now1 uid st h hgt
  have h1 := build_fresh_first det beh1 store0 now1 uid text1 t1 hgus hx1 he1
    hb1 ht1
  have h2 := build_live_second det beh2
    (build_conversation_response det true beh1 store0 now1 uid text1 false).store
    now2 uid text2 t2
    { lang := some (detect_language det text1), msg_count := 1, last_seen := now1,
      history := [⟨Role.user, text1⟩, ⟨Role.model, pyStrip t1⟩] }
    (detect_language det text1)
    h1.2 (by simpa using hwin) (by simp) rfl hx2 he2 hb2 ht2
  exact ⟨h1.1, h2, by rw [h2]; exact hclean⟩

/-- Witness for C6: a brand-new user asking about a mild headache gets the
English banner on the first reply and no banner on the second reply 100
seconds later. -/
theorem welcome_banner_first_message_only_witness :
    (build_conversation_response detEn true (behReply "Rest and drink fluids.")
        storeEmpty 0 "u" "I have a mild headache" false).reply
      = ("*" ++ welcome_text (detect_language detEn "I have a mild headache")
          ++ "*\n\n---\n")
        ++ pyStrip "Rest and drink fluids."
        ++ referral_suffix (detect_language detEn "I have a mild headache")
    ∧ (build_conversation_response detEn true (behReply "Drink water.")
        (build_conversation_response detEn true (behReply "Rest and drink fluids.")
          storeEmpty 0 "u" "I have a mild headache" false).store
        100 "u" "It is mild" false).reply
      = pyStrip "Drink water."
        ++ referral_suffix (detect_language detEn "I have a mild headache")
    ∧ strContainsSub
        (build_conversation_response detEn true (behReply "Drink water.")
          (build_conversation_response detEn true (behReply "Rest and drink fluids.")
            storeEmpty 0 "u" "I have a mild headache" false).store
          100 "u" "It is mild" false).reply
        ("*" ++ welcome_text (detect_language detEn "I have a mild headache")
          ++ "*\n\n---\n") = false := by
  exact welcome_banner_first_message_only detEn storeEmpty "u"
    "I have a mild headache" "It is mild" "Rest and drink fluids." "Drink water."
    0 100 (behReply "Rest and drink fluids.") (behReply "Drink water.")
    (Or.inl rfl) (by decide) (by decide) (by decide) (by decide) rfl (by decide)
    rfl (by decide) (by decide) (by decide)

end HealthBot
